import Mathlib

/-!
Shallow embedding of src/TileStache/Providers.py.

External collaborators (ModestMaps, PIL, the mapnik engine, the fetch of a
remote tile, the dynamic module loader) are passed in explicitly as function
or record parameters, so every definition below is executable and the control
flow of the Python source is reproduced one statement at a time.

Coordinate scalars (projected bounding-box coordinates) are never computed
with in this file of the source, only passed through to collaborators, so we
represent them by `Int` as an opaque pass-through value.
-/

/-- Opaque coordinate scalar: the source only passes these values through. -/
abbrev Scalar := Int

/-- A projected point, as fed to the Projection Service. -/
abbrev Point := Scalar × Scalar

/-- A geographic location, the black-box output of the Projection Service. -/
abbrev Location := Scalar × Scalar

/-- A tile coordinate: ModestMaps Coordinate with row, column and zoom. -/
structure Coordinate where
  row : Int
  column : Int
  zoom : Int
deriving DecidableEq, Repr

/-- An RGBA raster: explicit width and height plus a pixel lookup.
Pixels are abstract numeric values; lookups outside the bounds are junk in
the same way in every image, which is all the source relies on. -/
structure Image where
  width : Nat
  height : Nat
  pix : Nat → Nat → Nat

/-- PIL crop with box (left, upper, right, lower): the result has size
(right - left, lower - upper) and pixel (x, y) taken at (x + left, y + upper)
of the original. -/
def Image.crop (img : Image) (left upper right lower : Nat) : Image :=
  { width := right - left
    height := lower - upper
    pix := fun x y => img.pix (x + left) (y + upper) }

/-- PIL convert to RGBA: our raster model is already RGBA, so the conversion
keeps dimensions and pixel data. -/
def Image.convertRGBA (img : Image) : Image := img

/-- Modelled from the spec: the fixed spherical-mercator projection
identifier exposed by the Geography module, which is not under src/; the
spec treats it as one fixed string that calls are compared against. -/
def sphericalMercatorSRS : String :=
  "+proj=merc +a=6378137 +b=6378137 +lat_ts=0.0 +lon_0=0.0 +x_0=0.0 +y_0=0 +k=1.0 +units=m +nadgrids=@null +no_defs"

/-- The templated tile-URL collaborator (ModestMaps TemplatedMercatorProvider,
external): from a tile coordinate it produces the list of tile URLs. -/
structure TMercProvider where
  getTileUrls : Coordinate → List String

/-- Errors raised by the two providers; each constructor is one distinct
raise site of the source, carrying the data interpolated into its message. -/
inductive RenderError where
  | badProjection : String → RenderError
  | badDimensions : Nat → Nat → RenderError
  | badSRS : RenderError
  | styleLoad : RenderError
deriving DecidableEq, Repr

/-- The two renderTile raise sites are the projection mismatch and the
dimension mismatch; the spec groups both under UnsupportedGeometryError. -/
def RenderError.isUnsupportedGeometry : RenderError → Bool
  | .badProjection _ => true
  | .badDimensions _ _ => true
  | _ => false

/-- The Proxy provider state: it stores the templated tile-URL collaborator
constructed from the URL template. -/
structure Proxy where
  provider : TMercProvider

/-- Proxy.metatileOK class attribute. -/
def Proxy.metatileOK : Bool := true

/-- Proxy.__init__: self.provider = TemplatedMercatorProvider(url).
The external constructor is passed in as mk; the layer argument is unused. -/
def Proxy.init (mk : String → TMercProvider) (layer : String) (url : String) :
    Proxy :=
  let _ := layer
  { provider := mk url }

/-- Proxy.renderTile: check srs against the spherical-mercator identifier,
check (width, height) against (256, 256), then fetch the first tile URL for
the coordinate and convert the decoded image to RGBA. The blocking
urlopen-and-decode is the collaborator fetch. -/
def Proxy.renderTile (p : Proxy) (fetch : String → Image)
    (width height : Nat) (srs : String) (coord : Coordinate) :
    Except RenderError Image :=
  if srs ≠ sphericalMercatorSRS then
    .error (.badProjection srs)
  else if (width, height) ≠ (256, 256) then
    .error (.badDimensions width height)
  else
    let url := (p.provider.getTileUrls coord).headD ""
    .ok (Image.convertRGBA (fetch url))

/-- Proxy.renderArea: check srs, inflate the requested size by one pixel on
every side, project the two extent corners, ask the mosaicking collaborator
(mapByExtent followed by draw, both external) for a canvas of the inflated
size, and crop the composite with box (1, 1, width + 1, height + 1). -/
def Proxy.renderArea (p : Proxy) (proj : Point → Location)
    (mosaic : TMercProvider → Location → Location → Nat × Nat → Image)
    (width height : Nat) (srs : String)
    (xmin ymin xmax ymax : Scalar) : Except RenderError Image :=
  if srs ≠ sphericalMercatorSRS then
    .error .badSRS
  else
    let dim := (width + 2, height + 2)
    let loc1 := proj (xmin, ymin)
    let loc2 := proj (xmax, ymax)
    let img := (mosaic p.provider loc1 loc2 dim).crop 1 1 (width + 1) (height + 1)
    .ok img

/-- The inner region of an inflated canvas, as the spec words it: drop the
one-pixel border on every side. -/
def Image.innerRegion (img : Image) : Image :=
  { width := img.width - 2
    height := img.height - 2
    pix := fun x y => img.pix (x + 1) (y + 1) }

/-- The native engine handle (a mapnik.Map object): load_map sets its style,
the width and height attributes and zoom_to_box set the raster size and the
visible extent. mapnik.Map(0, 0) starts with size (0, 0), no extent seen and
no style loaded. -/
structure EngineMap where
  width : Nat
  height : Nat
  extent : Option (Scalar × Scalar × Scalar × Scalar)
  styled : Bool
deriving DecidableEq, Repr

/-- mapnik.Map(0, 0): a fresh engine handle. -/
def EngineMap.new : EngineMap :=
  { width := 0, height := 0, extent := none, styled := false }

/-- The external mapnik engine: loadMap says whether load_map succeeds on a
given style file (false means it raises), and render is the rasterization
pass reading the configured handle and filling the pixel buffer. -/
structure Engine where
  loadMap : String → Bool
  render : EngineMap → Nat → Nat → Nat

/-- The Mapnik provider state: layer, style file path, and the optional
engine handle, absent until the first render call. -/
structure Mapnik where
  layer : String
  mapfile : String
  mapnik : Option EngineMap

/-- Mapnik.metatileOK class attribute. -/
def Mapnik.metatileOK : Bool := true

/-- Mapnik.__init__: stores layer and mapfile and leaves the engine handle
unset (self.mapnik = None). -/
def Mapnik.init (layer : String) (mapfile : String) : Mapnik :=
  { layer := layer, mapfile := mapfile, mapnik := none }

/-- The tail of Mapnik.renderArea shared by every call: set the raster size
attributes and zoom_to_box the extent on the engine handle, run the
rasterization pass into a fresh (width, height) buffer, and rebuild the PIL
image from that buffer. Returns the updated provider state with the result. -/
def Mapnik.renderBody (eng : Engine) (m : Mapnik) (handle : EngineMap)
    (width height : Nat) (xmin ymin xmax ymax : Scalar) :
    Mapnik × Except RenderError Image :=
  let h := { handle with
             width := width
             height := height
             extent := some (xmin, ymin, xmax, ymax) }
  ({ m with mapnik := some h },
   .ok { width := width, height := height, pix := eng.render h })

/-- Mapnik.renderArea: when the handle is absent, assign a fresh
mapnik.Map(0, 0) to self.mapnik and then load the style file into it; a
load failure raises after the assignment, so the bare handle stays stored.
Afterwards configure size and extent and rasterize. srs is ignored. -/
def Mapnik.renderArea (eng : Engine) (m : Mapnik) (width height : Nat)
    (srs : String) (xmin ymin xmax ymax : Scalar) :
    Mapnik × Except RenderError Image :=
  let _ := srs
  match m.mapnik with
  | none =>
    let handle := EngineMap.new
    if eng.loadMap m.mapfile then
      let handle := { handle with styled := true }
      Mapnik.renderBody eng { m with mapnik := some handle } handle
        width height xmin ymin xmax ymax
    else
      ({ m with mapnik := some handle }, .error .styleLoad)
  | some handle =>
    Mapnik.renderBody eng m handle width height xmin ymin xmax ymax

/-- The result of getProviderByName: which built-in provider class it is. -/
inductive ProviderConstructor where
  | mapnik
  | proxy
deriving DecidableEq, Repr

/-- The error of getProviderByName, carrying the requested name. -/
inductive LookupError where
  | unknownProvider : String → LookupError
deriving DecidableEq, Repr

/-- getProviderByName: exact string comparison against "mapnik" then
"proxy"; any other name raises with the requested name in the message. -/
def getProviderByName (name : String) : Except LookupError ProviderConstructor :=
  if name = "mapnik" then
    .ok .mapnik
  else if name = "proxy" then
    .ok .proxy
  else
    .error (.unknownProvider name)

/-- An opaque attribute value of a dynamically loaded module (the provider
class that loadProviderByClass returns). -/
abbrev PyType := String

/-- A loaded module: getattr looks a name up among its attributes. -/
structure PyModule where
  attrs : String → Option PyType

/-- Errors of loadProviderByClass: the module could not be loaded, or it
loaded but getattr found no such attribute. -/
inductive ClassLoadError where
  | moduleLoad : String → ClassLoadError
  | typeLookup : String → ClassLoadError
deriving DecidableEq, Repr

/-- Python str.split on the dot character, on a list of characters:
splitting the empty text yields one empty piece, and every dot starts a new
piece. -/
def splitDots : List Char → List (List Char)
  | [] => [[]]
  | c :: rest =>
    let r := splitDots rest
    if c = '.' then
      [] :: r
    else
      match r with
      | [] => [[c]]
      | g :: gs => (c :: g) :: gs

/-- classpath.split of the Python source, producing strings. -/
def pySplitDot (s : String) : List String :=
  (splitDots s.data).map String.mk

/-- The Python join with a dot separator, as used on classpath segments. -/
def joinDots : List String → String
  | [] => ""
  | [s] => s
  | s :: rest => s ++ "." ++ joinDots rest

/-- loadProviderByClass: split the dotted class path, join every segment but
the last into the module reference and import it (importMod is the dynamic
loader collaborator, none meaning the import raises), then getattr the last
segment on the loaded module. -/
def loadProviderByClass (importMod : String → Option PyModule)
    (classpath : String) : Except ClassLoadError PyType :=
  let parts := pySplitDot classpath
  let moduleName := joinDots parts.dropLast
  match importMod moduleName with
  | none => .error (.moduleLoad moduleName)
  | some m =>
    let typeName := parts.getLastD ""
    match m.attrs typeName with
    | none => .error (.typeLookup typeName)
    | some t => .ok t

/-- C1: Proxy.renderArea with a valid srs asks the mosaicking collaborator
for a canvas of the inflated size (width + 2, height + 2) and returns that
composite cropped with box (1, 1, width + 1, height + 1); on a canvas of the
inflated size, this crop is exactly the inner (width, height) region with
the one-pixel border discarded on every side. -/
theorem proxy_renderArea_inflates_and_crops (p : Proxy) (proj : Point → Location)
    (mosaic : TMercProvider → Location → Location → Nat × Nat → Image)
    (width height : Nat) (xmin ymin xmax ymax : Scalar) :
    Proxy.renderArea p proj mosaic width height sphericalMercatorSRS xmin ymin xmax ymax
      = .ok ((mosaic p.provider (proj (xmin, ymin)) (proj (xmax, ymax))
          (width + 2, height + 2)).crop 1 1 (width + 1) (height + 1))
    ∧ (∀ canvas : Image, canvas.width = width + 2 → canvas.height = height + 2 →
        canvas.crop 1 1 (width + 1) (height + 1) = canvas.innerRegion
        ∧ (canvas.crop 1 1 (width + 1) (height + 1)).width = width
        ∧ (canvas.crop 1 1 (width + 1) (height + 1)).height = height) := by
  constructor
  · simp [Proxy.renderArea]
  · intro canvas hw hh
    refine ⟨?_, by simp [Image.crop], by simp [Image.crop]⟩
    simp [Image.crop, Image.innerRegion, hw, hh]

/-- C1 witness: a concrete call at size (4, 3) with a stub projection and a
stub mosaicking collaborator that honors the requested canvas size. -/
theorem proxy_renderArea_inflates_and_crops_witness :
    Proxy.renderArea ⟨⟨fun _ => []⟩⟩ (fun q => q)
        (fun _ _ _ d => ⟨d.1, d.2, fun _ _ => 7⟩) 4 3 sphericalMercatorSRS 0 0 1 1
      = .ok ((⟨6, 5, fun _ _ => 7⟩ : Image).crop 1 1 5 4)
    ∧ (⟨6, 5, fun _ _ => 7⟩ : Image).crop 1 1 5 4 = Image.innerRegion ⟨6, 5, fun _ _ => 7⟩
    ∧ ((⟨6, 5, fun _ _ => 7⟩ : Image).crop 1 1 5 4).width = 4
    ∧ ((⟨6, 5, fun _ _ => 7⟩ : Image).crop 1 1 5 4).height = 3 := by
  have h := proxy_renderArea_inflates_and_crops ⟨⟨fun _ => []⟩⟩ (fun q => q)
    (fun _ _ _ d => ⟨d.1, d.2, fun _ _ => 7⟩) 4 3 0 0 1 1
  exact ⟨h.1, h.2 ⟨6, 5, fun _ _ => 7⟩ rfl rfl⟩

/-- C2: whenever renderArea on either provider returns an image, that image
has dimensions exactly (width, height), never the inflated intermediate
size. -/
theorem renderArea_dimensions_exact :
    (∀ (p : Proxy) (proj : Point → Location)
       (mosaic : TMercProvider → Location → Location → Nat × Nat → Image)
       (width height : Nat) (srs : String) (xmin ymin xmax ymax : Scalar)
       (img : Image),
       Proxy.renderArea p proj mosaic width height srs xmin ymin xmax ymax = .ok img →
       img.width = width ∧ img.height = height)
    ∧ (∀ (eng : Engine) (m : Mapnik) (width height : Nat) (srs : String)
       (xmin ymin xmax ymax : Scalar) (img : Image),
       (Mapnik.renderArea eng m width height srs xmin ymin xmax ymax).2 = .ok img →
       img.width = width ∧ img.height = height) := by
  constructor
  · intro p proj mosaic width height srs xmin ymin xmax ymax img h
    rw [Proxy.renderArea] at h
    split at h
    · exact absurd h (by simp)
    · rw [Except.ok.injEq] at h
      subst h
      simp [Image.crop]
  · intro eng m width height srs xmin ymin xmax ymax img h
    rw [Mapnik.renderArea] at h
    split at h
    · split at h
      · rw [Mapnik.renderBody] at h
        rw [Except.ok.injEq] at h
        subst h
        exact ⟨rfl, rfl⟩
      · exact absurd h (by simp)
    · rw [Mapnik.renderBody] at h
      rw [Except.ok.injEq] at h
      subst h
      exact ⟨rfl, rfl⟩

/-- C2 witness: concrete calls on both providers, at size (4, 3) for the
proxy and (256, 256) for the native engine provider. -/
theorem renderArea_dimensions_exact_witness :
    ((⟨6, 5, fun _ _ => 7⟩ : Image).crop 1 1 5 4).width = 4
      ∧ ((⟨6, 5, fun _ _ => 7⟩ : Image).crop 1 1 5 4).height = 3
      ∧ (⟨256, 256, fun x y => 256 + x + y⟩ : Image).width = 256
      ∧ (⟨256, 256, fun x y => 256 + x + y⟩ : Image).height = 256 := by
  have h1 := renderArea_dimensions_exact.1 ⟨⟨fun _ => []⟩⟩ (fun q => q)
    (fun _ _ _ d => ⟨d.1, d.2, fun _ _ => 7⟩) 4 3 sphericalMercatorSRS 0 0 1 1
    ((⟨6, 5, fun _ _ => 7⟩ : Image).crop 1 1 5 4) rfl
  have h2 := renderArea_dimensions_exact.2 ⟨fun _ => true, fun h x y => h.width + x + y⟩
    (Mapnik.init "layer" "style.xml") 256 256 sphericalMercatorSRS 0 0 1 1
    ⟨256, 256, fun x y => 256 + x + y⟩ rfl
  exact ⟨h1.1, h1.2, h2.1, h2.2⟩

/-- C3: getProviderByName maps exactly "mapnik" to the Mapnik class and
exactly "proxy" to the Proxy class; every other string, the empty string and
case or whitespace variants included, raises the unknown-provider error
carrying the requested name unchanged. -/
theorem getProviderByName_exact :
    getProviderByName "mapnik" = .ok .mapnik
    ∧ getProviderByName "proxy" = .ok .proxy
    ∧ ∀ name : String, name ≠ "mapnik" → name ≠ "proxy" →
        getProviderByName name = .error (.unknownProvider name) := by
  refine ⟨rfl, rfl, ?_⟩
  intro name h1 h2
  simp [getProviderByName, h1, h2]

/-- C3 witness: the case variant "Mapnik", the padded variant " proxy" and
the empty string all fail with the requested name. -/
theorem getProviderByName_exact_witness :
    getProviderByName "Mapnik" = .error (.unknownProvider "Mapnik")
    ∧ getProviderByName " proxy" = .error (.unknownProvider " proxy")
    ∧ getProviderByName "" = .error (.unknownProvider "") :=
  ⟨getProviderByName_exact.2.2 "Mapnik" (by decide) (by decide),
   getProviderByName_exact.2.2 " proxy" (by decide) (by decide),
   getProviderByName_exact.2.2 "" (by decide) (by decide)⟩

/-- C4: Proxy.renderTile raises an unsupported-geometry error whenever srs
differs from the spherical-mercator identifier and whenever (width, height)
differs from (256, 256); when both checks pass it proceeds to fetch the
first templated tile URL. -/
theorem proxy_renderTile_validates (p : Proxy) (fetch : String → Image)
    (width height : Nat) (srs : String) (coord : Coordinate) :
    (srs ≠ sphericalMercatorSRS →
      ∃ e, Proxy.renderTile p fetch width height srs coord = .error e
        ∧ e.isUnsupportedGeometry = true)
    ∧ ((width, height) ≠ (256, 256) →
      ∃ e, Proxy.renderTile p fetch width height srs coord = .error e
        ∧ e.isUnsupportedGeometry = true)
    ∧ (srs = sphericalMercatorSRS → (width, height) = (256, 256) →
      Proxy.renderTile p fetch width height srs coord
        = .ok (Image.convertRGBA (fetch ((p.provider.getTileUrls coord).headD "")))) := by
  refine ⟨fun hs => ?_, fun hd => ?_, fun hs hd => ?_⟩
  · exact ⟨.badProjection srs, by simp [Proxy.renderTile, hs],
      rfl⟩
  · by_cases hs : srs = sphericalMercatorSRS
    · exact ⟨.badDimensions width height, by simp [Proxy.renderTile, hs, hd], rfl⟩
    · exact ⟨.badProjection srs, by simp [Proxy.renderTile, hs], rfl⟩
  · simp [Proxy.renderTile, hs, hd]

/-- C4 witness: concrete calls with a wrong srs, with wrong dimensions, and
with both checks passing. -/
theorem proxy_renderTile_validates_witness :
    (∃ e, Proxy.renderTile ⟨⟨fun _ => ["u"]⟩⟩ (fun _ => ⟨256, 256, fun _ _ => 0⟩)
        256 256 "EPSG:4326" ⟨0, 0, 0⟩ = .error e ∧ e.isUnsupportedGeometry = true)
    ∧ (∃ e, Proxy.renderTile ⟨⟨fun _ => ["u"]⟩⟩ (fun _ => ⟨256, 256, fun _ _ => 0⟩)
        100 200 sphericalMercatorSRS ⟨0, 0, 0⟩ = .error e ∧ e.isUnsupportedGeometry = true)
    ∧ Proxy.renderTile ⟨⟨fun _ => ["u"]⟩⟩ (fun _ => ⟨256, 256, fun _ _ => 0⟩)
        256 256 sphericalMercatorSRS ⟨0, 0, 0⟩
      = .ok (Image.convertRGBA ⟨256, 256, fun _ _ => 0⟩) :=
  ⟨(proxy_renderTile_validates _ _ _ _ _ _).1 (by decide),
   (proxy_renderTile_validates _ _ _ _ _ _).2.1 (by decide),
   (proxy_renderTile_validates ⟨⟨fun _ => ["u"]⟩⟩ (fun _ => ⟨256, 256, fun _ _ => 0⟩)
      256 256 sphericalMercatorSRS ⟨0, 0, 0⟩).2.2 rfl rfl⟩

/-- C5: loadProviderByClass splits the dotted path, joins all segments but
the last into the module reference and dynamically loads it, then retrieves
the last segment from the loaded module; a load failure gives the
module-load error and a missing attribute gives the type-lookup error. The
last two conjuncts pin the split and join down on a representative path. -/
theorem loadProviderByClass_splits_and_loads
    (importMod : String → Option PyModule) (classpath : String) :
    ((importMod (joinDots (pySplitDot classpath).dropLast) = none →
      loadProviderByClass importMod classpath
        = .error (.moduleLoad (joinDots (pySplitDot classpath).dropLast)))
    ∧ ∀ m, importMod (joinDots (pySplitDot classpath).dropLast) = some m →
        (m.attrs ((pySplitDot classpath).getLastD "") = none →
          loadProviderByClass importMod classpath
            = .error (.typeLookup ((pySplitDot classpath).getLastD "")))
        ∧ ∀ t, m.attrs ((pySplitDot classpath).getLastD "") = some t →
            loadProviderByClass importMod classpath = .ok t)
    ∧ pySplitDot "Package.Submodule.ClassName" = ["Package", "Submodule", "ClassName"]
    ∧ joinDots ["Package", "Submodule"] = "Package.Submodule" := by
  refine ⟨⟨fun hm => ?_, fun m hm => ⟨fun ha => ?_, fun t ha => ?_⟩⟩, rfl, rfl⟩
  · rw [loadProviderByClass, hm]
  · simp only [loadProviderByClass, hm, ha]
  · simp only [loadProviderByClass, hm, ha]

/-- C5 witness: a loader that only knows the module "Package.Submodule" with
the single attribute "ClassName"; the three outcomes are exercised on the
paths "A.B", "Package.Submodule.Missing" and "Package.Submodule.ClassName". -/
theorem loadProviderByClass_splits_and_loads_witness :
    loadProviderByClass (fun _ => none) "A.B" = .error (.moduleLoad "A")
    ∧ loadProviderByClass
        (fun s => if s = "Package.Submodule"
          then some ⟨fun n => if n = "ClassName" then some "tClass" else none⟩
          else none)
        "Package.Submodule.Missing" = .error (.typeLookup "Missing")
    ∧ loadProviderByClass
        (fun s => if s = "Package.Submodule"
          then some ⟨fun n => if n = "ClassName" then some "tClass" else none⟩
          else none)
        "Package.Submodule.ClassName" = .ok "tClass" :=
  ⟨(loadProviderByClass_splits_and_loads (fun _ => none) "A.B").1.1 rfl,
   ((loadProviderByClass_splits_and_loads
      (fun s => if s = "Package.Submodule"
        then some ⟨fun n => if n = "ClassName" then some "tClass" else none⟩
        else none) "Package.Submodule.Missing").1.2
      ⟨fun n => if n = "ClassName" then some "tClass" else none⟩ rfl).1 rfl,
   (((loadProviderByClass_splits_and_loads
      (fun s => if s = "Package.Submodule"
        then some ⟨fun n => if n = "ClassName" then some "tClass" else none⟩
        else none) "Package.Submodule.ClassName").1.2
      ⟨fun n => if n = "ClassName" then some "tClass" else none⟩ rfl).2 "tClass" rfl)⟩

/-- C6: the engine handle is absent right after construction; the first
renderArea call constructs it and loads the style, and every call, the
first included, hands the rasterization pass a handle whose raster size is
(width, height) and whose extent is the projected rectangle, with the
returned image built from that configured handle. -/
theorem mapnik_lazy_engine_configured
    (layer mapfile : String) (eng : Engine) (m : Mapnik)
    (width height : Nat) (srs : String) (xmin ymin xmax ymax : Scalar) :
    (Mapnik.init layer mapfile).mapnik = none
    ∧ (m.mapnik = none → eng.loadMap m.mapfile = true →
        Mapnik.renderArea eng m width height srs xmin ymin xmax ymax
          = ({ m with mapnik := some ⟨width, height, some (xmin, ymin, xmax, ymax), true⟩ },
             .ok ⟨width, height,
                  eng.render ⟨width, height, some (xmin, ymin, xmax, ymax), true⟩⟩))
    ∧ (∀ h0 : EngineMap, m.mapnik = some h0 →
        Mapnik.renderArea eng m width height srs xmin ymin xmax ymax
          = ({ m with mapnik := some ⟨width, height, some (xmin, ymin, xmax, ymax), h0.styled⟩ },
             .ok ⟨width, height,
                  eng.render ⟨width, height, some (xmin, ymin, xmax, ymax), h0.styled⟩⟩)) := by
  refine ⟨rfl, fun hm hl => ?_, fun h0 hm => ?_⟩
  · rw [Mapnik.renderArea, hm]
    simp only [hl, if_true]
    rfl
  · rw [Mapnik.renderArea, hm]
    rfl

/-- C6 witness: a freshly constructed provider rendered once, then rendered
again from the resulting state. -/
theorem mapnik_lazy_engine_configured_witness :
    (Mapnik.init "layer" "style.xml").mapnik = none
    ∧ Mapnik.renderArea ⟨fun _ => true, fun _ _ _ => 3⟩ (Mapnik.init "layer" "style.xml")
        300 150 sphericalMercatorSRS 0 0 9 9
      = (⟨"layer", "style.xml", some ⟨300, 150, some (0, 0, 9, 9), true⟩⟩,
         .ok ⟨300, 150, fun _ _ => 3⟩)
    ∧ Mapnik.renderArea ⟨fun _ => true, fun _ _ _ => 3⟩
        ⟨"layer", "style.xml", some ⟨300, 150, some (0, 0, 9, 9), true⟩⟩
        256 256 sphericalMercatorSRS 1 1 5 5
      = (⟨"layer", "style.xml", some ⟨256, 256, some (1, 1, 5, 5), true⟩⟩,
         .ok ⟨256, 256, fun _ _ => 3⟩) := by
  have h1 := mapnik_lazy_engine_configured "layer" "style.xml"
    ⟨fun _ => true, fun _ _ _ => 3⟩ (Mapnik.init "layer" "style.xml")
    300 150 sphericalMercatorSRS 0 0 9 9
  have h2 := mapnik_lazy_engine_configured "layer" "style.xml"
    ⟨fun _ => true, fun _ _ _ => 3⟩
    ⟨"layer", "style.xml", some ⟨300, 150, some (0, 0, 9, 9), true⟩⟩
    256 256 sphericalMercatorSRS 1 1 5 5
  exact ⟨h1.1, h1.2.1 rfl rfl, h2.2.2 ⟨300, 150, some (0, 0, 9, 9), true⟩ rfl⟩

/-- C7: with an engine whose style load always fails, the first renderArea
call on a fresh provider raises the style-load error, but the bare engine
handle has already been assigned, so the second call on the resulting state
skips the style load entirely and returns an image rendered from the
unstyled handle: the failure is not provider-fatal. -/
theorem mapnik_styleLoad_skipped_after_failure :
    (Mapnik.renderArea ⟨fun _ => false, fun _ _ _ => 0⟩
        (Mapnik.init "layer" "broken.xml") 256 256 sphericalMercatorSRS 0 0 1 1).2
      = .error .styleLoad
    ∧ (Mapnik.renderArea ⟨fun _ => false, fun _ _ _ => 0⟩
        (Mapnik.init "layer" "broken.xml") 256 256 sphericalMercatorSRS 0 0 1 1).1.mapnik
      = some ⟨0, 0, none, false⟩
    ∧ (Mapnik.renderArea ⟨fun _ => false, fun _ _ _ => 0⟩
        ((Mapnik.renderArea ⟨fun _ => false, fun _ _ _ => 0⟩
            (Mapnik.init "layer" "broken.xml") 256 256 sphericalMercatorSRS 0 0 1 1).1)
        256 256 sphericalMercatorSRS 0 0 1 1).2
      = .ok ⟨256, 256, fun _ _ => 0⟩ :=
  ⟨rfl, rfl, rfl⟩

/-- C8: renderTile on a Proxy built from a URL template fetches exactly the
first URL that the templated tile-URL collaborator constructed from that
template produces for the given coordinate, for every coordinate. -/
theorem proxy_renderTile_requests_first_templated_url
    (mk : String → TMercProvider) (layer url : String)
    (fetch : String → Image) (coord : Coordinate) :
    Proxy.renderTile (Proxy.init mk layer url) fetch 256 256 sphericalMercatorSRS coord
      = .ok (Image.convertRGBA (fetch (((mk url).getTileUrls coord).headD ""))) := by
  simp [Proxy.renderTile, Proxy.init]

/-- C9: when srs is wrong and (width, height) also differs from (256, 256),
renderTile raises the projection-mismatch error, not the dimension-mismatch
error: the projection check comes first. -/
theorem proxy_renderTile_projection_check_first
    (p : Proxy) (fetch : String → Image) (width height : Nat)
    (srs : String) (coord : Coordinate)
    (hs : srs ≠ sphericalMercatorSRS) (hd : (width, height) ≠ (256, 256)) :
    Proxy.renderTile p fetch width height srs coord = .error (.badProjection srs) := by
  simp [Proxy.renderTile, hs]

/-- C9 witness: both checks violated at once on a concrete call. -/
theorem proxy_renderTile_projection_check_first_witness :
    Proxy.renderTile ⟨⟨fun _ => []⟩⟩ (fun _ => ⟨1, 1, fun _ _ => 0⟩) 1 1 "EPSG:4326" ⟨0, 0, 0⟩
      = .error (.badProjection "EPSG:4326") :=
  proxy_renderTile_projection_check_first ⟨⟨fun _ => []⟩⟩ (fun _ => ⟨1, 1, fun _ _ => 0⟩)
    1 1 "EPSG:4326" ⟨0, 0, 0⟩ (by decide) (by decide)

/-- C10: renderArea on the Proxy provider validates only srs: for the
spherical-mercator identifier and any positive width and height, not just
256 by 256, the call runs the inflate, compose and crop pipeline and
returns its image without raising any geometry error. -/
theorem proxy_renderArea_no_dimension_check
    (p : Proxy) (proj : Point → Location)
    (mosaic : TMercProvider → Location → Location → Nat × Nat → Image)
    (width height : Nat) (srs : String) (xmin ymin xmax ymax : Scalar)
    (hs : srs = sphericalMercatorSRS) (hw : 0 < width) (hh : 0 < height) :
    Proxy.renderArea p proj mosaic width height srs xmin ymin xmax ymax
      = .ok ((mosaic p.provider (proj (xmin, ymin)) (proj (xmax, ymax))
          (width + 2, height + 2)).crop 1 1 (width + 1) (height + 1)) := by
  subst hs
  simp [Proxy.renderArea]

/-- C10 witness: a 300 by 150 area request, far from the 256 by 256 tile
size, succeeds. -/
theorem proxy_renderArea_no_dimension_check_witness :
    Proxy.renderArea ⟨⟨fun _ => []⟩⟩ (fun q => q)
        (fun _ _ _ d => ⟨d.1, d.2, fun _ _ => 1⟩) 300 150 sphericalMercatorSRS 0 0 8 8
      = .ok ((⟨302, 152, fun _ _ => 1⟩ : Image).crop 1 1 301 151) :=
  proxy_renderArea_no_dimension_check ⟨⟨fun _ => []⟩⟩ (fun q => q)
    (fun _ _ _ d => ⟨d.1, d.2, fun _ _ => 1⟩) 300 150 sphericalMercatorSRS 0 0 8 8
    rfl (by decide) (by decide)
